import Mathlib

/-!
Shallow embedding of the ToDoListPro chatbot webhook service (src/app.py).

The service is a Flask webhook for the LINE messaging platform.  The parts
relevant to the frozen claims are:
  * the `schedules` table (SQLAlchemy model `Schedule`, app.py lines 30-36),
    modelled as a list of `TodoApp.Schedule` records in insertion order;
  * the text-message handler `handle_message` (lines 82-185): the three-way
    intent dispatch on the stripped message text and the datetime-picker
    window computation (`initial`/`min`/`max`);
  * the postback handler `handle_postback` (lines 188-350): the
    `action=schedule` branch (parse the `&`-joined payload, insert a row),
    the `action=check_schedule` branch (day-bucket query, render a list) and
    the `action=generate_report` branch (day-bucket query, build a report
    text and a prompt, call the Gemini collaborator, reply);
  * the HTTP `/callback` route (lines 66-79).

Timestamps: the picker always produces strings of the shape
`YYYY-MM-DDTHH:MM`; `datetime.fromisoformat` is modelled by `fromisoformat`
on exactly that shape (any other shape raises in Python and is `none` here).
A parsed datetime is kept field-wise (`DT`), as Python keeps it, and
linearised to minutes since 0001-01-01 by `DT.toMinutes` for comparisons:
the SQL comparisons `scheduled_datetime >= selected_date` /
`< selected_date + timedelta(days=1)` are order-isomorphic to comparisons
of this linearisation.  The external generation collaborator is an oracle
`String → GenOutcome`; the prompts actually sent to it are recorded so that
invocation (or non-invocation) is visible in the result of the model.
-/

namespace TodoApp

/-- Digit value of an ASCII digit character, `none` otherwise. -/
def digitVal (c : Char) : Option Nat :=
  if '0' ≤ c ∧ c ≤ '9' then some (c.toNat - '0'.toNat) else none

/-- Two-digit decimal number from two characters. -/
def nat2 (a b : Char) : Option Nat :=
  match digitVal a, digitVal b with
  | some x, some y => some (10 * x + y)
  | _, _ => none

/-- Four-digit decimal number from four characters. -/
def nat4 (a b c d : Char) : Option Nat :=
  match nat2 a b, nat2 c d with
  | some x, some y => some (100 * x + y)
  | _, _ => none

/-- Gregorian leap-year test, as in Python `calendar.isleap`. -/
def isLeapYear (y : Nat) : Bool :=
  (y % 4 == 0 && y % 100 != 0) || y % 400 == 0

/-- Number of days in month `m` of year `y` (months are 1-based). -/
def daysInMonth (y m : Nat) : Nat :=
  if m = 2 then (if isLeapYear y then 29 else 28)
  else if m = 4 ∨ m = 6 ∨ m = 9 ∨ m = 11 then 30
  else 31

/-- Days in all years strictly before year `y` (proleptic Gregorian). -/
def daysBeforeYear (y : Nat) : Nat :=
  365 * (y - 1) + (y - 1) / 4 - (y - 1) / 100 + (y - 1) / 400

/-- Days in the months of year `y` strictly before month `m`. -/
def daysBeforeMonth (y m : Nat) : Nat :=
  (List.range (m - 1)).foldl (fun acc i => acc + daysInMonth y (i + 1)) 0

/-- Day ordinal of a calendar date, 0 for 0001-01-01 (Python
`date.toordinal() - 1`). -/
def dateOrdinal (y m d : Nat) : Nat :=
  daysBeforeYear y + daysBeforeMonth y m + (d - 1)

/-- A Python `datetime.date` value, produced by `.date()` in the handlers. -/
structure PyDate where
  year : Nat
  month : Nat
  day : Nat
  deriving Repr, DecidableEq

/-- Minute linearisation of the midnight starting a date. -/
def PyDate.toMin (d : PyDate) : Nat :=
  dateOrdinal d.year d.month d.day * 1440

/-- A Python `datetime.datetime` value at minute precision, as produced by
`datetime.fromisoformat` on the `YYYY-MM-DDTHH:MM` strings of the picker. -/
structure DT where
  year : Nat
  month : Nat
  day : Nat
  hour : Nat
  minute : Nat
  deriving Repr, DecidableEq

/-- The `.date()` projection used at app.py lines 230 and 263. -/
def DT.date (t : DT) : PyDate :=
  { year := t.year, month := t.month, day := t.day }

/-- Minute linearisation of a datetime; order-isomorphic to the Python
datetime ordering (and to the SQLite lexicographic ISO-string ordering). -/
def DT.toMinutes (t : DT) : Nat :=
  t.date.toMin + t.hour * 60 + t.minute

/-- Field-range validity enforced by the Python datetime constructor. -/
def validDT (y mo d h mi : Nat) : Bool :=
  decide (1 ≤ y) && decide (1 ≤ mo) && decide (mo ≤ 12) && decide (1 ≤ d) &&
    decide (d ≤ daysInMonth y mo) && decide (h ≤ 23) && decide (mi ≤ 59)

/-- Model of `datetime.fromisoformat` restricted to the picker shape
`YYYY-MM-DDTHH:MM`; `none` models the `ValueError` Python raises. -/
def fromisoformat (s : String) : Option DT :=
  match s.data with
  | [y1, y2, y3, y4, a, m1, m2, b, d1, d2, c, h1, h2, e, n1, n2] =>
    if a = '-' ∧ b = '-' ∧ c = 'T' ∧ e = ':' then
      match nat4 y1 y2 y3 y4, nat2 m1 m2, nat2 d1 d2, nat2 h1 h2, nat2 n1 n2 with
      | some y, some mo, some d, some h, some mi =>
        if validDT y mo d h mi then some { year := y, month := mo, day := d, hour := h, minute := mi }
        else none
      | _, _, _, _, _ => none
    else none
  | _ => none

/-- A row of the `schedules` table (app.py lines 30-36).  `created_at` is a
write-only audit column (DB default, never read by the app) and is omitted. -/
structure Schedule where
  id : Nat
  user_id : String
  message : String
  scheduled_datetime : DT
  deriving Repr, DecidableEq

/-- The table contents, in insertion order; ids are assigned sequentially by
the store (SQLite autoincrement, no deletions exist). -/
abbrev Store := List Schedule

/-- Comparison used by `order_by(Schedule.scheduled_datetime)`. -/
def schedLE (a b : Schedule) : Prop :=
  a.scheduled_datetime.toMinutes ≤ b.scheduled_datetime.toMinutes

instance : DecidableRel schedLE :=
  fun a b => Nat.decLe a.scheduled_datetime.toMinutes b.scheduled_datetime.toMinutes

instance : IsTotal Schedule schedLE :=
  ⟨fun a b => Nat.le_total a.scheduled_datetime.toMinutes b.scheduled_datetime.toMinutes⟩

instance : IsTrans Schedule schedLE := ⟨fun _ _ _ hab hbc => Nat.le_trans hab hbc⟩

/-- The day-bucket query of app.py lines 233-236 and 266-269:
`filter(scheduled_datetime >= selected_date,
        scheduled_datetime < selected_date + timedelta(days=1))
 .order_by(scheduled_datetime)`.
The SQL sort is modelled by a stable insertion sort (ties keep insertion
order, which is what SQLite delivers for this table). -/
def queryDay (st : Store) (d : PyDate) : List Schedule :=
  List.insertionSort schedLE
    (st.filter fun s =>
      decide (d.toMin ≤ s.scheduled_datetime.toMinutes ∧
        s.scheduled_datetime.toMinutes < d.toMin + 1440))

/-- Python `str.split` on a one-character separator: no collapsing of empty
pieces, `split sep "" = [""]`. -/
def splitOnChar (sep : Char) : List Char → List (List Char)
  | [] => [[]]
  | c :: rest =>
    let r := splitOnChar sep rest
    if c = sep then [] :: r else (c :: r.headD []) :: r.tail

/-- Python `str.startswith`. -/
def startsWithL : List Char → List Char → Bool
  | [], _ => true
  | _ :: _, [] => false
  | a :: as, b :: bs => a == b && startsWithL as bs

def pyStartsWith (pre s : String) : Bool :=
  startsWithL pre.data s.data

/-- `data.split("&")` at app.py line 192. -/
def pySplitAmp (s : String) : List String :=
  (splitOnChar '&' s.data).map String.mk

/-- `part.split("=")[-1]` at app.py line 196. -/
def pyLastEqSegment (s : String) : String :=
  String.mk ((splitOnChar '=' s.data).getLastD [])

/-- The user-message extraction loop of app.py lines 192-196: start from
`None`, overwrite with `part.split("=")[-1]` for every part starting with
`"user_message="`. -/
def extract_user_message (data : String) : Option String :=
  (pySplitAmp data).foldl
    (fun acc part =>
      if pyStartsWith "user_message=" part then some (pyLastEqSegment part) else acc)
    none

/-- Picker payload built at app.py line 167. -/
def scheduleData (user_message : String) : String :=
  "action=schedule&user_message=" ++ user_message

/-- Picker payload built at app.py line 102. -/
def checkScheduleData (user_id : String) : String :=
  "action=check_schedule&user_id=" ++ user_id

/-- Picker payload built at app.py line 134. -/
def generateReportData (user_id : String) : String :=
  "action=generate_report&user_id=" ++ user_id

/-- The three intents of the message-handler dispatch. -/
inductive Intent where
  | CreateSchedule (payload : String)
  | QueryDay
  | GenerateReport
  deriving Repr, DecidableEq

/-- The intent dispatch of `handle_message` (app.py lines 88, 120, 153) on
the stripped message text `user_message = event.message.text.strip()`. -/
def classify (user_message : String) : Intent :=
  if user_message = "予定確認" then Intent.QueryDay
  else if user_message = "日報作成" then Intent.GenerateReport
  else Intent.CreateSchedule user_message

/-- The datetime-picker window; fields are JST wall-clock instants in
seconds (the code computes `datetime.now(JST)` and formats the three values
naively with `%Y-%m-%dT%H:%M`, all in the fixed UTC+9 offset). -/
structure PickerWindow where
  initialT : Int
  minT : Int
  maxT : Int
  deriving Repr, DecidableEq

/-- The window computation repeated at app.py lines 90-97, 122-129 and
155-162: `initial = now.replace(minute=0, second=0)` (zero the minute and
second fields, i.e. truncate to the hour), `min = now - timedelta(days=365)`,
`max = now + timedelta(days=365)`. -/
def resolveWindow (now : Int) : PickerWindow :=
  { initialT := now - now % 3600
    minT := now - 365 * 86400
    maxT := now + 365 * 86400 }

/-- The fields of a `PostbackEvent` read by `handle_postback`:
`event.source.user_id`, `event.postback.data`, and
`event.postback.params.get("datetime")` (`none` when the key is absent). -/
structure PostbackEv where
  user_id : String
  data : String
  params : Option String
  deriving Repr, DecidableEq

/-- The `action=schedule` branch of `handle_postback` (app.py lines
190-220): parse `user_message` out of the payload, read the datetime with
sentinel `"不明"`, and either insert a row and confirm, or reply with the
fixed invalid-input notice and leave the store unchanged.  A parse failure
of the datetime raises inside the `try` and is caught (rollback + error
reply), so the store is unchanged there too.  Returns the new store and the
reply text. -/
def handle_postback_schedule (ev : PostbackEv) (st : Store) : Store × String :=
  let user_message := extract_user_message ev.data
  let schedule_datetime := ev.params.getD "不明"
  match user_message with
  | some m =>
    if m ≠ "" ∧ schedule_datetime ≠ "不明" then
      match fromisoformat schedule_datetime with
      | some dtv =>
        (st ++ [{ id := st.length + 1, user_id := ev.user_id, message := m,
                  scheduled_datetime := dtv }],
         m ++ " の予定を " ++ schedule_datetime ++ " に保存しました。")
      | none => (st, "データベース保存中にエラーが発生しました: ValueError")
    else (st, "無効なデータが入力されました。")
  | none => (st, "無効なデータが入力されました。")

/-- Zero-padded two-digit rendering (`%H`, `%M`, `%m`, `%d`). -/
def pad2 (n : Nat) : String :=
  if n < 10 then "0" ++ Nat.repr n else Nat.repr n

/-- Zero-padded four-digit rendering (`%Y` as CPython renders it). -/
def pad4 (n : Nat) : String :=
  if n < 10 then "000" ++ Nat.repr n
  else if n < 100 then "00" ++ Nat.repr n
  else if n < 1000 then "0" ++ Nat.repr n
  else Nat.repr n

/-- `selected_date.strftime("%Y年%m月%d日")`. -/
def fmtDateJP (d : PyDate) : String :=
  pad4 d.year ++ "年" ++ pad2 d.month ++ "月" ++ pad2 d.day ++ "日"

/-- `strftime("%H:%M") ++ " - " ++ message`
(app.py lines 243 and 274). -/
def scheduleLine (s : Schedule) : String :=
  pad2 s.scheduled_datetime.hour ++ ":" ++ pad2 s.scheduled_datetime.minute
    ++ " - " ++ s.message

/-- `"\n".join(...)`. -/
def joinLines (l : List String) : String :=
  String.intercalate "\n" l

/-- The `action=check_schedule` branch of `handle_postback` (app.py lines
226-256).  `Except.error` models the uncaught `ValueError` that
`datetime.fromisoformat` raises at line 230 on an unparseable string (there
is no `try` around it); `Except.ok` carries the reply text. -/
def handle_postback_check (ev : PostbackEv) (st : Store) : Except String String :=
  let selected_date_str := ev.params.getD "不明"
  if selected_date_str ≠ "不明" then
    match fromisoformat selected_date_str with
    | some dtv =>
      let selected_date := dtv.date
      let schedules := queryDay st selected_date
      let header_message := "📅 " ++ fmtDateJP selected_date ++ " の予定一覧:\n"
      if schedules ≠ [] then
        Except.ok (header_message ++ joinLines (schedules.map scheduleLine))
      else
        Except.ok (header_message ++ "その日に予定はありません。")
    | none => Except.error "ValueError: invalid isoformat string"
  else Except.ok "日付の取得に失敗しました。"

/-- Outcome of `genai.GenerativeModel("gemini-pro").generate_content(prompt)`
as consumed by app.py lines 312-336: a first-candidate text, an empty
candidate list, an `AttributeError` while reading the response, or any other
exception (including the collaborator being unconfigured/unreachable). -/
inductive GenOutcome where
  | candidates (text : String)
  | noCandidates
  | attrError
  | genError (msg : String)
  deriving Repr, DecidableEq

/-- The fixed instructional template of app.py lines 283-309 wrapped around
`report_text` (the f-string between the two `\x22\x22\x22` quotes). -/
def promptTemplate (report_text : String) : String :=
  "\n\n元の文章を参照して以下の形式で医療記録を生成してください。\n\x27\x27\x27\n【食生活、清潔、排泄、睡眠、生活リズム、部屋の整頓等】\n生成した文章\n【精神状態】 \n生成した文章 \n【服薬等の状況】\n生成した文章\n【作業、対人関係について】 \n生成した文章\n【その他】※無い場合もあります\n生成した文章  ※無い場合もあります\n\x27\x27\x27\n\n利用者様は精神障害や発達障害を抱える方で障碍者向けグループホームに通いながら、平日は作業所へ通っています。\n条件が5点あります。\n\"【】\"で囲まれた文は変更しないでください。\nその他の文は文意は変更せずに文章を変更してください。\n２００文字程度ごとに誤字を作ってください\nですます調は絶対に使わず、語尾は体言止めか形容詞止めか『いる。』か『ある。』か『あり。』か『ない。』のみを使ってください。\n\n元の文章:\n"
    ++ report_text ++ "\n生成した文章:\n"

/-- Observable outcome of the `action=generate_report` branch: the reply
actually sent (app.py line 343 sends `report_text`), the `response_text`
computed from the collaborator (printed, never sent), and the prompts
forwarded to the collaborator (records each `generate_content` call). -/
structure ReportOutcome where
  reply : String
  response_text : Option String
  prompts : List String
  deriving Repr, DecidableEq

/-- The `action=generate_report` branch of `handle_postback` (app.py lines
258-350), with the generation collaborator abstracted as the oracle `gen`.
`Except.error` models the uncaught `ValueError` of `fromisoformat` at line
263.  Note two source facts this model preserves: the prompt is built and
`generate_content` is called unconditionally once the date parses (also when
the day has no events), and the reply is `report_text`, not the computed
`response_text`. -/
def handle_postback_generate_report (gen : String → GenOutcome) (ev : PostbackEv)
    (st : Store) : Except String ReportOutcome :=
  let selected_date_str := ev.params.getD "不明"
  if selected_date_str ≠ "不明" then
    match fromisoformat selected_date_str with
    | some dtv =>
      let selected_date := dtv.date
      let schedules := queryDay st selected_date
      let report_text :=
        if schedules ≠ [] then
          fmtDateJP selected_date ++ "の日報:\n\n" ++ joinLines (schedules.map scheduleLine)
        else
          fmtDateJP selected_date ++ " に予定がないため、日報を生成できません。"
      let prompt := promptTemplate report_text
      let response_text :=
        match gen prompt with
        | GenOutcome.candidates t => t
        | GenOutcome.noCandidates => "AIからの応答が生成されませんでした。"
        | GenOutcome.attrError => "AI応答の処理中にエラーが発生しました。"
        | GenOutcome.genError e => "AI応答の生成中にエラーが発生しました: " ++ e
      Except.ok { reply := report_text, response_text := some response_text,
                  prompts := [prompt] }
    | none => Except.error "ValueError: invalid isoformat string"
  else Except.ok { reply := "日付の取得に失敗しました。", response_text := none, prompts := [] }

/-- HTTP responses of the `/callback` route: a normal response with status
code and body, or the 500 Flask produces for an uncaught exception. -/
inductive HttpResp where
  | resp (code : Nat) (body : String)
  | serverError
  deriving Repr, DecidableEq

/-- The `/callback` route (app.py lines 66-79).  `sig` is the
`X-Line-Signature` header, `sigValid` the verdict of the SDK HMAC check
(`handler.handle` raises `InvalidSignatureError` when false), and
`downstream` the outcome of the dispatched event handlers, which
`handler.handle` runs synchronously when the signature is valid: the route
catches only `InvalidSignatureError`, so a `downstream` exception escapes
and Flask answers 500. -/
def callback (sig : Option String) (sigValid : Bool) (downstream : Except String Unit) :
    HttpResp :=
  match sig with
  | none => HttpResp.resp 400 "X-Line-Signature ヘッダーが欠けています"
  | some _ =>
    if sigValid then
      match downstream with
      | Except.ok _ => HttpResp.resp 200 "OK"
      | Except.error _ => HttpResp.serverError
    else HttpResp.resp 400 "無効な署名です"

/-- A sample row by owner U1 at 2025-03-01 09:30. -/
def e1 : Schedule :=
  { id := 1, user_id := "U1", message := "朝会",
    scheduled_datetime := { year := 2025, month := 3, day := 1, hour := 9, minute := 30 } }

/-- A sample row by a different owner U2 at 2025-03-01 10:00. -/
def e2 : Schedule :=
  { id := 2, user_id := "U2", message := "歯医者",
    scheduled_datetime := { year := 2025, month := 3, day := 1, hour := 10, minute := 0 } }

/-- A sample row exactly at the next midnight 2025-03-02 00:00. -/
def e3 : Schedule :=
  { id := 3, user_id := "U1", message := "締切",
    scheduled_datetime := { year := 2025, month := 3, day := 2, hour := 0, minute := 0 } }

/-- A sample store holding rows of two owners plus a boundary row. -/
def demoStore : Store := [e1, e2, e3]

/-!
Helper lemmas about the payload split/parse machinery and the datetime
parser, shared by several of the claim theorems below.
-/

theorem splitOnChar_of_not_mem {sep : Char} {l : List Char} (h : sep ∉ l) :
    splitOnChar sep l = [l] := by
  induction l with
  | nil => rfl
  | cons c rest ih =>
    have hc : ¬ c = sep := fun e => h (e ▸ List.mem_cons_self _ _)
    have hr : sep ∉ rest := fun m => h (List.mem_cons_of_mem _ m)
    simp [splitOnChar, if_neg hc, ih hr]

theorem splitOnChar_append {sep : Char} {xs : List Char} (ys : List Char) (h : sep ∉ xs) :
    splitOnChar sep (xs ++ sep :: ys) = xs :: splitOnChar sep ys := by
  induction xs with
  | nil => simp [splitOnChar]
  | cons c xs ih =>
    have hc : ¬ c = sep := fun e => h (e ▸ List.mem_cons_self _ _)
    have hx : sep ∉ xs := fun m => h (List.mem_cons_of_mem _ m)
    simp [splitOnChar, if_neg hc, ih hx]

theorem startsWithL_append (p t : List Char) : startsWithL p (p ++ t) = true := by
  induction p with
  | nil => rfl
  | cons a as ih => simp [startsWithL, ih]

theorem extract_user_message_scheduleData (m : String)
    (hamp : '&' ∉ m.data) (heqc : '=' ∉ m.data) :
    extract_user_message (scheduleData m) = some m := by
  obtain ⟨l⟩ := m
  have hdata : (scheduleData ⟨l⟩).data
      = "action=schedule".data ++ '&' :: ("user_message=".data ++ l) := rfl
  have h2 : '&' ∉ ("user_message=".data ++ l) := by
    intro hm
    rcases List.mem_append.1 hm with h | h
    · exact absurd h (by decide)
    · exact hamp h
  unfold extract_user_message pySplitAmp
  rw [hdata, splitOnChar_append _ (by decide), splitOnChar_of_not_mem h2]
  simp only [List.map, List.foldl]
  have hs1 : pyStartsWith "user_message=" (String.mk "action=schedule".data) = false := by decide
  have hs2 : pyStartsWith "user_message=" (String.mk ("user_message=".data ++ l)) = true := by
    show startsWithL "user_message=".data _ = true
    exact startsWithL_append _ _
  rw [hs1]
  simp only [Bool.false_eq_true, if_false, hs2, if_true]
  congr 1
  show String.mk ((splitOnChar '=' (("user_message=".data : List Char) ++ l)).getLastD []) = _
  have h4 : ("user_message=".data : List Char) ++ l = "user_message".data ++ '=' :: l := rfl
  rw [h4, splitOnChar_append _ (by decide), splitOnChar_of_not_mem heqc]
  rfl

theorem fromisoformat_hm_bounds {s : String} {t : DT} (h : fromisoformat s = some t) :
    t.hour ≤ 23 ∧ t.minute ≤ 59 := by
  unfold fromisoformat at h
  split at h
  · split at h
    · split at h
      · split at h
        · rename_i hv
          simp only [validDT, Bool.and_eq_true, decide_eq_true_eq] at hv
          obtain ⟨⟨_, hh⟩, hmi⟩ := hv
          cases h
          exact ⟨hh, hmi⟩
        · exact absurd h (by simp)
      · exact absurd h (by simp)
    · exact absurd h (by simp)
  · exact absurd h (by simp)

/-- C1: for every valid triple (ownerId, text, scheduledAt) — text non-empty and
free of the unescaped payload delimiters, scheduledAt a parseable picker
timestamp — starting from the empty store, handling the create-schedule
postback inserts one row, and the day-bucket query for the day covering
scheduledAt returns exactly that one entry with the inserted owner, text and
timestamp. -/
theorem c1_insert_then_query (uid text dtStr : String) (dtv : DT)
    (hne : text ≠ "") (hamp : '&' ∉ text.data) (heqc : '=' ∉ text.data)
    (hparse : fromisoformat dtStr = some dtv) :
    queryDay (handle_postback_schedule
        { user_id := uid, data := scheduleData text, params := some dtStr } []).1 dtv.date
      = [{ id := 1, user_id := uid, message := text, scheduled_datetime := dtv }] := by
  have hnm : dtStr ≠ "不明" := by
    intro h
    have h0 : fromisoformat "不明" = none := by decide
    rw [h, h0] at hparse
    exact Option.noConfusion hparse
  have hex := extract_user_message_scheduleData text hamp heqc
  have hstore : handle_postback_schedule
      { user_id := uid, data := scheduleData text, params := some dtStr } []
      = ([{ id := 1, user_id := uid, message := text, scheduled_datetime := dtv }],
         text ++ " の予定を " ++ dtStr ++ " に保存しました。") := by
    unfold handle_postback_schedule
    simp only [hex, Option.getD_some]
    rw [if_pos ⟨hne, hnm⟩, hparse]
    rfl
  rw [hstore]
  have hb := fromisoformat_hm_bounds hparse
  have hlin : dtv.toMinutes = dtv.date.toMin + dtv.hour * 60 + dtv.minute := rfl
  have hq : dtv.date.toMin ≤ dtv.toMinutes ∧ dtv.toMinutes < dtv.date.toMin + 1440 := by
    omega
  unfold queryDay
  simp [List.filter_cons, hq]

theorem c1_witness :
    queryDay (handle_postback_schedule
        { user_id := "U1", data := scheduleData "歯医者", params := some "2025-03-01T10:00" }
        []).1
        (DT.date { year := 2025, month := 3, day := 1, hour := 10, minute := 0 })
      = [{ id := 1, user_id := "U1", message := "歯医者",
           scheduled_datetime := { year := 2025, month := 3, day := 1, hour := 10, minute := 0 } }] :=
  c1_insert_then_query "U1" "歯医者" "2025-03-01T10:00"
    { year := 2025, month := 3, day := 1, hour := 10, minute := 0 }
    (by decide) (by decide) (by decide) (by decide)

/-- C2: for every store state and date d, the day-bucket query returns only
entries with scheduledAt in the half-open interval of d (an entry exactly at
the next midnight is excluded), and the returned sequence is sorted
ascending by scheduledAt. -/
theorem c2_day_bucket_query (st : Store) (d : PyDate) :
    (∀ e ∈ queryDay st d,
        d.toMin ≤ e.scheduled_datetime.toMinutes ∧
          e.scheduled_datetime.toMinutes < d.toMin + 1440)
    ∧ (∀ e : Schedule, e.scheduled_datetime.toMinutes = d.toMin + 1440 →
        e ∉ queryDay st d)
    ∧ List.Sorted schedLE (queryDay st d) := by
  have hmem : ∀ e ∈ queryDay st d,
      d.toMin ≤ e.scheduled_datetime.toMinutes ∧
        e.scheduled_datetime.toMinutes < d.toMin + 1440 := by
    intro e he
    have he2 := (List.perm_insertionSort schedLE _).mem_iff.1 he
    have hp := List.of_mem_filter he2
    exact of_decide_eq_true hp
  refine ⟨hmem, ?_, List.sorted_insertionSort schedLE _⟩
  intro e hb he
  have := (hmem e he).2
  omega

theorem c2_witness :
    queryDay demoStore { year := 2025, month := 3, day := 1 } = [e1, e2]
    ∧ e3 ∉ queryDay demoStore { year := 2025, month := 3, day := 1 } :=
  ⟨by decide,
   (c2_day_bucket_query demoStore { year := 2025, month := 3, day := 1 }).2.1 e3 (by decide)⟩

/-- C3: the day-bucket query used by check_schedule and generate_report depends
only on the selected date and the store, not on the requesting owner: two
events differing only in the requesting user id produce identical results,
and every stored entry in range is returned no matter which user_id it
records. -/
theorem c3_owner_agnostic (uid1 uid2 : String) (p : Option String)
    (gen : String → GenOutcome) (st : Store) (d : PyDate) :
    handle_postback_check { user_id := uid1, data := checkScheduleData uid1, params := p } st
      = handle_postback_check { user_id := uid2, data := checkScheduleData uid2, params := p } st
    ∧ handle_postback_generate_report gen
        { user_id := uid1, data := generateReportData uid1, params := p } st
      = handle_postback_generate_report gen
        { user_id := uid2, data := generateReportData uid2, params := p } st
    ∧ ∀ e ∈ st, d.toMin ≤ e.scheduled_datetime.toMinutes →
        e.scheduled_datetime.toMinutes < d.toMin + 1440 → e ∈ queryDay st d := by
  refine ⟨rfl, rfl, ?_⟩
  intro e he h1 h2
  rw [queryDay, (List.perm_insertionSort schedLE _).mem_iff]
  exact List.mem_filter.2 ⟨he, decide_eq_true ⟨h1, h2⟩⟩

theorem c3_witness :
    (handle_postback_check
        { user_id := "U1", data := checkScheduleData "U1", params := some "2025-03-01T00:00" }
        demoStore
      = handle_postback_check
        { user_id := "U2", data := checkScheduleData "U2", params := some "2025-03-01T00:00" }
        demoStore)
    ∧ e1 ∈ queryDay demoStore { year := 2025, month := 3, day := 1 }
    ∧ e2 ∈ queryDay demoStore { year := 2025, month := 3, day := 1 } :=
  ⟨(c3_owner_agnostic "U1" "U2" (some "2025-03-01T00:00") (fun _ => GenOutcome.noCandidates)
      demoStore { year := 2025, month := 3, day := 1 }).1,
   (c3_owner_agnostic "U1" "U2" (some "2025-03-01T00:00") (fun _ => GenOutcome.noCandidates)
      demoStore { year := 2025, month := 3, day := 1 }).2.2 e1 (by decide) (by decide) (by decide),
   (c3_owner_agnostic "U1" "U2" (some "2025-03-01T00:00") (fun _ => GenOutcome.noCandidates)
      demoStore { year := 2025, month := 3, day := 1 }).2.2 e2 (by decide) (by decide) (by decide)⟩

/-- C4 (code bug): at a date with zero stored events the reply is indeed the
fixed no-events string, but the generation collaborator is still invoked
once — the prompt is built and generate_content is called unconditionally
after the date parses, contradicting the claim that it is never invoked. -/
theorem c4_report_zero_events_still_calls_generator :
    (handle_postback_generate_report (fun _ => GenOutcome.candidates "生成済みの文章")
        { user_id := "U1", data := generateReportData "U1",
          params := some "2025-03-01T00:00" } []).map
      (fun out => (out.reply, out.prompts.length))
      = Except.ok ("2025年03月01日 に予定がないため、日報を生成できません。", 1) := by
  rfl

/-- C5 (code bug): with a configured, reachable collaborator returning a
candidate text, the reply is still the deterministic listing report_text
(app.py line 343); the computed response_text carrying the collaborator
output is discarded, contradicting the claim that the collaborator response
becomes the final message. -/
theorem c5_reply_is_listing_not_generated :
    ((handle_postback_generate_report (fun _ => GenOutcome.candidates "これは生成された日報。")
        { user_id := "U1", data := generateReportData "U1",
          params := some "2025-03-01T00:00" } demoStore).map
      (fun out => (out.reply, out.response_text))
      = Except.ok ("2025年03月01日の日報:\n\n09:30 - 朝会\n10:00 - 歯医者",
          some "これは生成された日報。"))
    ∧ ("2025年03月01日の日報:\n\n09:30 - 朝会\n10:00 - 歯医者" : String)
        ≠ "これは生成された日報。" := by
  exact ⟨rfl, by decide⟩

/-- C6: the two fixed trigger phrases classify to query-day and
generate-report, and every other non-empty string classifies to
create-schedule carrying that string as payload. -/
theorem c6_classify_three_way (s : String) (_hne : s ≠ "")
    (h1 : s ≠ "予定確認") (h2 : s ≠ "日報作成") :
    classify "予定確認" = Intent.QueryDay
    ∧ classify "日報作成" = Intent.GenerateReport
    ∧ classify s = Intent.CreateSchedule s := by
  refine ⟨by decide, by decide, ?_⟩
  unfold classify
  rw [if_neg h1, if_neg h2]

theorem c6_witness :
    classify "歯医者" = Intent.CreateSchedule "歯医者" :=
  (c6_classify_three_way "歯医者" (by decide) (by decide) (by decide)).2.2

/-- C7: resolving the picker window at instant T yields min = T - 365 days and
max = T + 365 days (hence min < T < max), and initial = T with the minute
and second fields zeroed (initial is the hour floor of T). -/
theorem c7_picker_window (t : Int) :
    (resolveWindow t).minT = t - 365 * 86400
    ∧ (resolveWindow t).maxT = t + 365 * 86400
    ∧ (resolveWindow t).minT < t ∧ t < (resolveWindow t).maxT
    ∧ (resolveWindow t).initialT % 3600 = 0
    ∧ (resolveWindow t).initialT ≤ t ∧ t < (resolveWindow t).initialT + 3600 := by
  unfold resolveWindow
  dsimp only
  refine ⟨rfl, rfl, by omega, by omega, by omega, by omega, by omega⟩

/-- C8: for every create-schedule postback whose datetime parameter resolves to
the sentinel "不明" or whose user_message field is absent from the payload,
the handler replies with the fixed invalid-input notice and the store is
unchanged. -/
theorem c8_invalid_selection (ev : PostbackEv) (st : Store)
    (h : ev.params.getD "不明" = "不明" ∨ extract_user_message ev.data = none) :
    handle_postback_schedule ev st = (st, "無効なデータが入力されました。") := by
  cases hm : extract_user_message ev.data with
  | none => simp [handle_postback_schedule, hm]
  | some m =>
    rcases h with h | h
    · simp [handle_postback_schedule, hm, h]
    · rw [hm] at h
      exact Option.noConfusion h

theorem c8_witness :
    handle_postback_schedule
        { user_id := "U1", data := scheduleData "歯医者", params := none } []
      = ([], "無効なデータが入力されました。") :=
  c8_invalid_selection
    { user_id := "U1", data := scheduleData "歯医者", params := none } [] (Or.inl rfl)

/-- C9 (amended): missing signature header yields 400, invalid signature yields
400, and a valid signature yields 200 "OK" whenever the downstream handlers
complete without an uncaught exception (the route catches only
InvalidSignatureError, so the original claim regardless-of-any-failure
does not hold; see the counterexample). -/
theorem c9_http_contract (sig : String) (sigValid : Bool) (downstream : Except String Unit) :
    callback none sigValid downstream
      = HttpResp.resp 400 "X-Line-Signature ヘッダーが欠けています"
    ∧ callback (some sig) false downstream = HttpResp.resp 400 "無効な署名です"
    ∧ (∀ u : Unit, downstream = Except.ok u →
        callback (some sig) true downstream = HttpResp.resp 200 "OK") := by
  refine ⟨rfl, rfl, ?_⟩
  intro u h
  rw [h]
  rfl

theorem c9_witness :
    callback (some "sig") true (Except.ok ()) = HttpResp.resp 200 "OK" :=
  (c9_http_contract "sig" true (Except.ok ())).2.2 () rfl

/-- C9 counterexample: a postback whose check_schedule branch hits the uncaught
fromisoformat ValueError (datetime parameter "きょう") makes the route answer
a 500 server error even though the signature is valid, refuting the claim
that every validly signed request yields 200 "OK" regardless of downstream
failures. -/
theorem c9_counterexample :
    callback (some "sig") true
        ((handle_postback_check
            { user_id := "U1", data := checkScheduleData "U1", params := some "きょう" }
            []).map fun _ => ())
      = HttpResp.serverError
    ∧ HttpResp.serverError ≠ HttpResp.resp 200 "OK" := by
  exact ⟨rfl, by decide⟩

/-- C10: for every message text containing neither the ampersand nor the equals
delimiter, encoding it into the phase-1 picker payload and parsing that
payload back in phase 2 recovers exactly the original text. -/
theorem c10_payload_roundtrip (m : String) (hamp : '&' ∉ m.data) (heqc : '=' ∉ m.data) :
    extract_user_message (scheduleData m) = some m :=
  extract_user_message_scheduleData m hamp heqc

theorem c10_witness :
    extract_user_message (scheduleData "歯医者 10時") = some "歯医者 10時" :=
  c10_payload_roundtrip "歯医者 10時" (by decide) (by decide)

end TodoApp
